import Mathlib

/-!
Verification development for the SAVP v3.6 engine.

Shallow embedding of the Python sources:
  * `savp_v36_core_completo.py` : dignity classification, two-layer weighting,
    aspect detection, tree paths, critical paths, dispositor graph, and the
    full chart analysis `procesar_carta_savp_v36_completa`.
  * `main.py` : the solar-return root finder `find_solar_return_dt_utc`
    (bracket scan plus bisection).

Numbers are modelled as exact rationals.  The Python builtin `round(x, n)`
(round half to even on the decimal value) is modelled by `rhe` / `round2` /
`round1`; the Python float operator `%` (sign of the divisor) is `pymod`.
Python dictionaries are modelled as association lists in insertion order
(`upsert` replaces in place like a dict assignment), and the dictionary
`aspectos_por_planeta` is modelled as a total function with default `[]`,
matching every read the source performs on it.  The set of processed pairs
`procesados` (which the source keys by the lexicographically sorted tuple) is
modelled as a list of pairs tested up to swapping the two components, which
recognises exactly the same unordered pairs.  Python exceptions are modelled
by `Except`: `CoreErr` stands for the builtin exceptions the core module can
raise, and `SRErr.runtimeError` for the builtin `RuntimeError` which is the
only exception class `main.py` raises.

Fields of the source records that feed no computation referenced by any claim
(the glyph string `simbolo`, the name / psalm / attribute strings of the 72
genii table, the unused `dispositor` dataclass default) are omitted; the
genius number itself (`calcular_genio`) is kept.
-/

namespace SAVP

/-- Round half to even (the Python builtin `round`) on an exact rational,
returning the nearest integer and preferring the even one on ties. -/
def rhe (x : ℚ) : ℤ :=
  if x - ⌊x⌋ < 1/2 then ⌊x⌋
  else if 1/2 < x - ⌊x⌋ then ⌊x⌋ + 1
  else if 2 ∣ ⌊x⌋ then ⌊x⌋ else ⌊x⌋ + 1

/-- Python `round(x, 2)` on an exact rational. -/
def round2 (x : ℚ) : ℚ := (rhe (x * 100) : ℚ) / 100

/-- Python `round(x, 1)` on an exact rational. -/
def round1 (x : ℚ) : ℚ := (rhe (x * 10) : ℚ) / 10

theorem rhe_le (x : ℚ) : (rhe x : ℚ) ≤ x + 1/2 := by
  unfold rhe
  have h1 : (⌊x⌋ : ℚ) ≤ x := Int.floor_le x
  have h2 : x < ⌊x⌋ + 1 := Int.lt_floor_add_one x
  split_ifs <;> push_cast <;> linarith

theorem le_rhe (x : ℚ) : x - 1/2 ≤ (rhe x : ℚ) := by
  unfold rhe
  have h1 : (⌊x⌋ : ℚ) ≤ x := Int.floor_le x
  have h2 : x < ⌊x⌋ + 1 := Int.lt_floor_add_one x
  split_ifs <;> push_cast <;> linarith

theorem round2_pos {x : ℚ} (h : 1/100 ≤ x) : 0 < round2 x := by
  unfold round2
  have := le_rhe (x * 100)
  have hr : (1/2 : ℚ) ≤ (rhe (x * 100) : ℚ) := by linarith
  linarith

theorem round2_le_of_le {x : ℚ} {n : ℤ} (h : x * 100 ≤ (n : ℚ)) :
    round2 x ≤ (n : ℚ) / 100 := by
  unfold round2
  have hle : (rhe (x * 100) : ℚ) ≤ x * 100 + 1/2 := rhe_le (x * 100)
  have hlt : (rhe (x * 100) : ℚ) < (n : ℚ) + 1 := by linarith
  have hint : rhe (x * 100) ≤ n := by exact_mod_cast Int.lt_add_one_iff.mp (by exact_mod_cast hlt)
  have hq : (rhe (x * 100) : ℚ) ≤ (n : ℚ) := by exact_mod_cast hint
  linarith

/-- Python float `%` operator: `x % m = x - m * floor (x / m)` (result has
the sign of the divisor), as used by `_wrap_diff_deg` in `main.py`. -/
def pymod (x m : ℚ) : ℚ := x - m * ⌊x / m⌋

-- ===========================================================================
-- Correspondence tables of savp_v36_core_completo.py
-- ===========================================================================

/-- PLANETA_SEPHIRAH lookup (`dict.get`: `none` for unknown names). -/
def planetaSephirah : String → Option String
  | "Sol" => some "Tiphareth"
  | "Luna" => some "Yesod"
  | "Mercurio" => some "Hod"
  | "Venus" => some "Netzach"
  | "Marte" => some "Geburah"
  | "Jupiter" => some "Chesed"
  | "Saturno" => some "Binah"
  | "Urano" => some "Chokmah"
  | "Neptuno" => some "Kether"
  | "Pluton" => some "Daath"
  | _ => none

/-- SEPHIRAH_PILAR lookup with the default `central` used by the pipeline
(`SEPHIRAH_PILAR.get(sephirah, 'central')`). -/
def sephirahPilar : String → String
  | "Kether" => "central"
  | "Chokmah" => "derecho"
  | "Binah" => "izquierdo"
  | "Chesed" => "derecho"
  | "Geburah" => "izquierdo"
  | "Tiphareth" => "central"
  | "Netzach" => "derecho"
  | "Hod" => "izquierdo"
  | "Yesod" => "central"
  | "Malkuth" => "central"
  | "Daath" => "central"
  | _ => "central"

/-- One row of DIGNIDADES_CANONICAS. -/
structure Dignidades where
  domicilio : List String
  exaltacion : List String
  exilio : List String
  caida : List String
deriving Repr, DecidableEq

/-- DIGNIDADES_CANONICAS lookup (`dict.get`: `none` for unknown planets). -/
def dignidadesCanonicas : String → Option Dignidades
  | "Sol" => some ⟨["Leo"], ["Aries"], ["Acuario"], ["Libra"]⟩
  | "Luna" => some ⟨["Cancer"], ["Tauro"], ["Capricornio"], ["Escorpio"]⟩
  | "Mercurio" => some ⟨["Geminis", "Virgo"], ["Virgo"], ["Sagitario", "Piscis"], ["Piscis"]⟩
  | "Venus" => some ⟨["Tauro", "Libra"], ["Piscis"], ["Aries", "Escorpio"], ["Virgo"]⟩
  | "Marte" => some ⟨["Aries", "Escorpio"], ["Capricornio"], ["Libra", "Tauro"], ["Cancer"]⟩
  | "Jupiter" => some ⟨["Sagitario", "Piscis"], ["Cancer"], ["Geminis", "Virgo"], ["Capricornio"]⟩
  | "Saturno" => some ⟨["Capricornio", "Acuario"], ["Libra"], ["Cancer", "Leo"], ["Aries"]⟩
  | "Urano" => some ⟨["Acuario"], ["Escorpio"], ["Leo"], ["Tauro"]⟩
  | "Neptuno" => some ⟨["Piscis"], ["Cancer"], ["Virgo"], ["Capricornio"]⟩
  | "Pluton" => some ⟨["Escorpio"], ["Leo"], ["Tauro"], ["Acuario"]⟩
  | _ => none

/-- SIGNOS_KERYKEION_SAVP lookup with identity default (`normalizar_signo`). -/
def normalizarSigno : String → String
  | "Ari" => "Aries"
  | "Tau" => "Tauro"
  | "Gem" => "Geminis"
  | "Can" => "Cancer"
  | "Leo" => "Leo"
  | "Vir" => "Virgo"
  | "Lib" => "Libra"
  | "Sco" => "Escorpio"
  | "Sag" => "Sagitario"
  | "Cap" => "Capricornio"
  | "Aqu" => "Acuario"
  | "Pis" => "Piscis"
  | s => s

/-- SIGNOS_INDEX lookup with default 0 (`SIGNOS_INDEX.get(signo, 0)`). -/
def signosIndex : String → ℕ
  | "Aries" => 0
  | "Tauro" => 1
  | "Geminis" => 2
  | "Cancer" => 3
  | "Leo" => 4
  | "Virgo" => 5
  | "Libra" => 6
  | "Escorpio" => 7
  | "Sagitario" => 8
  | "Capricornio" => 9
  | "Acuario" => 10
  | "Piscis" => 11
  | _ => 0

/-- REGENCIAS lookup (`dict.get`: `none` for unknown signs). -/
def regencias : String → Option String
  | "Aries" => some "Marte"
  | "Tauro" => some "Venus"
  | "Geminis" => some "Mercurio"
  | "Cancer" => some "Luna"
  | "Leo" => some "Sol"
  | "Virgo" => some "Mercurio"
  | "Libra" => some "Venus"
  | "Escorpio" => some "Pluton"
  | "Sagitario" => some "Jupiter"
  | "Capricornio" => some "Saturno"
  | "Acuario" => some "Urano"
  | "Piscis" => some "Neptuno"
  | _ => none

/-- One entry of SENDEROS_ARBOL, keeping all the fields the source copies
into results (`numero` is the dictionary key). -/
structure Sendero where
  numero : ℕ
  nombre : String
  arcano : ℕ
  sephiroth : String × String
  elemento : String
deriving Repr, DecidableEq

/-- SENDEROS_ARBOL in dictionary insertion order (keys 11 .. 32). -/
def senderosArbol : List Sendero :=
  [ ⟨11, "El Loco", 0, ("Kether", "Chokmah"), "Aire"⟩,
    ⟨12, "El Mago", 1, ("Kether", "Binah"), "Mercurio"⟩,
    ⟨13, "La Sacerdotisa", 2, ("Kether", "Tiphareth"), "Luna"⟩,
    ⟨14, "La Emperatriz", 3, ("Chokmah", "Binah"), "Venus"⟩,
    ⟨15, "El Emperador", 4, ("Chokmah", "Tiphareth"), "Aries"⟩,
    ⟨16, "El Hierofante", 5, ("Chokmah", "Chesed"), "Tauro"⟩,
    ⟨17, "Los Enamorados", 6, ("Binah", "Tiphareth"), "Géminis"⟩,
    ⟨18, "El Carro", 7, ("Binah", "Geburah"), "Cáncer"⟩,
    ⟨19, "La Fuerza", 8, ("Chesed", "Geburah"), "Leo"⟩,
    ⟨20, "El Ermitaño", 9, ("Chesed", "Tiphareth"), "Virgo"⟩,
    ⟨21, "La Rueda", 10, ("Chesed", "Netzach"), "Júpiter"⟩,
    ⟨22, "La Justicia", 11, ("Geburah", "Tiphareth"), "Libra"⟩,
    ⟨23, "El Colgado", 12, ("Geburah", "Hod"), "Agua"⟩,
    ⟨24, "La Muerte", 13, ("Tiphareth", "Netzach"), "Escorpio"⟩,
    ⟨25, "Templanza", 14, ("Tiphareth", "Yesod"), "Sagitario"⟩,
    ⟨26, "El Diablo", 15, ("Tiphareth", "Hod"), "Capricornio"⟩,
    ⟨27, "La Torre", 16, ("Netzach", "Hod"), "Marte"⟩,
    ⟨28, "La Estrella", 17, ("Netzach", "Yesod"), "Acuario"⟩,
    ⟨29, "La Luna", 18, ("Netzach", "Malkuth"), "Piscis"⟩,
    ⟨30, "El Sol", 19, ("Hod", "Yesod"), "Sol"⟩,
    ⟨31, "El Juicio", 20, ("Hod", "Malkuth"), "Fuego"⟩,
    ⟨32, "El Mundo", 21, ("Yesod", "Malkuth"), "Saturno"⟩ ]

/-- Mapping of lowercase request keys to internal body names (`nombre_map`
in `procesar_carta_savp_v36_completa`). -/
def nombreMap : String → Option String
  | "sol" => some "Sol"
  | "luna" => some "Luna"
  | "mercurio" => some "Mercurio"
  | "venus" => some "Venus"
  | "marte" => some "Marte"
  | "jupiter" => some "Jupiter"
  | "saturno" => some "Saturno"
  | "urano" => some "Urano"
  | "neptuno" => some "Neptuno"
  | "pluton" => some "Pluton"
  | _ => none

-- ===========================================================================
-- Dignities, genius number and the two-layer weighting
-- ===========================================================================

/-- Input record of `calcular_peso_final_v36` (the per-body dictionary built
in step 1 of the pipeline). -/
structure PlanetaData where
  nombre : String
  grado : ℚ
  signo : String
  casa : ℤ
  retrogrado : Bool
deriving Repr, DecidableEq

/-- `calcular_dignidad`: essential dignity and base weight.  The branch
constants are the values of PESO_ESENCIAL. -/
def calcularDignidad (planeta signo0 : String) : String × ℚ :=
  let signo := normalizarSigno signo0
  match dignidadesCanonicas planeta with
  | none => ("peregrino", 1)
  | some digs =>
    if signo ∈ digs.domicilio then ("domicilio", 3)
    else if signo ∈ digs.exaltacion then ("exaltacion", 2)
    else if signo ∈ digs.exilio then ("exilio", 1/2)
    else if signo ∈ digs.caida then ("caida", 1/4)
    else ("peregrino", 1)

/-- Genius number of `calcular_genio` (the only field of the genius record
that is computed rather than looked up): `1 + signo_idx * 6 + int(grado // 5)`. -/
def calcularGenioNumero (grado : ℚ) (signo : String) : ℤ :=
  1 + (signosIndex (normalizarSigno signo) : ℤ) * 6 + ⌊grado / 5⌋

/-- Result record of `calcular_peso_final_v36`. -/
structure Ponderacion where
  pesoFinal : ℚ
  dignidad : String
  pesoEsencial : ℚ
  M_casa : ℚ
  M_retro : ℚ
  M_aspectos : ℚ
deriving Repr, DecidableEq

/-- `calcular_peso_final_v36`: two-layer weight.  Note that the value stored
under `peso_final` is already rounded to 2 decimals. -/
def calcularPesoFinalV36 (pd : PlanetaData) (aspectosCount : ℕ) : Ponderacion :=
  let dig := calcularDignidad pd.nombre pd.signo
  let M_casa : ℚ :=
    if pd.casa = 1 ∨ pd.casa = 4 ∨ pd.casa = 7 ∨ pd.casa = 10 then 6/5
    else if pd.casa = 2 ∨ pd.casa = 5 ∨ pd.casa = 8 ∨ pd.casa = 11 then 1
    else 17/20
  let M_retro : ℚ := if pd.retrogrado then 9/10 else 1
  let M_aspectos : ℚ := 1 + min ((aspectosCount : ℚ) * (7/100)) (35/100)
  let pesoFinal := dig.2 * M_casa * M_retro * M_aspectos
  { pesoFinal := round2 pesoFinal
    dignidad := dig.1
    pesoEsencial := dig.2
    M_casa := M_casa
    M_retro := M_retro
    M_aspectos := M_aspectos }

-- ===========================================================================
-- Aspects
-- ===========================================================================

/-- One entry of a per-body aspect list (the dictionaries appended by
`calcular_aspectos_carta`). -/
structure AspRec where
  tipo : String
  con : String
  orbe : ℚ
  exacto : Bool
deriving Repr, DecidableEq

/-- `posicion_absoluta`: sign plus in-sign degree to absolute longitude. -/
def posicionAbsoluta (signo : String) (grado : ℚ) : ℚ :=
  (signosIndex (normalizarSigno signo) : ℚ) * 30 + grado

/-- `calcular_distancia_angular`: shorter angular distance. -/
def calcularDistanciaAngular (pos1 pos2 : ℚ) : ℚ :=
  if |pos1 - pos2| > 180 then 360 - |pos1 - pos2| else |pos1 - pos2|

/-- The `aspectos` dictionary of `detectar_aspecto` in insertion order:
name, reference angle, maximal orb. -/
def aspectosTable : List (String × ℚ × ℚ) :=
  [("conjuncion", 0, 8), ("sextil", 60, 6), ("cuadratura", 90, 8),
   ("trigono", 120, 8), ("oposicion", 180, 8)]

/-- `detectar_aspecto` over an arbitrary table order (the source iterates the
dictionary in insertion order and returns the first entry whose orb
`|distancia - angulo|` stays within the maximal orb). -/
def detectarAspectoCon : List (String × ℚ × ℚ) → ℚ → Option (String × ℚ)
  | [], _ => none
  | e :: resto, distancia =>
    if |distancia - e.2.1| ≤ e.2.2 then some (e.1, |distancia - e.2.1|)
    else detectarAspectoCon resto distancia

/-- `detectar_aspecto`. -/
def detectarAspecto (distancia : ℚ) : Option (String × ℚ) :=
  detectarAspectoCon aspectosTable distancia

/-- Unordered-pair membership in the processed set.  The source stores
`tuple(sorted([n1, n2]))` in a set; testing both orientations recognises
exactly the same unordered pairs. -/
def parVisto (st : List (String × String)) (a b : String) : Prop :=
  (a, b) ∈ st ∨ (b, a) ∈ st

instance (st : List (String × String)) (a b : String) : Decidable (parVisto st a b) := by
  unfold parVisto; infer_instance

/-- Append one aspect record to the bucket of one body (a dictionary-entry
`append` of `calcular_aspectos_carta`). -/
def bumpAsp (f : String → List AspRec) (n : String) (r : AspRec) :
    String → List AspRec :=
  fun x => if x = n then f x ++ [r] else f x

/-- State of the double loop of `calcular_aspectos_carta`: the processed-pair
set and the per-body aspect map (a dictionary whose every read defaults to
`[]`). -/
structure AspState where
  procesados : List (String × String)
  mapa : String → List AspRec

/-- Body of the inner loop of `calcular_aspectos_carta` for a fixed `p1`. -/
def aspStep (p1 : PlanetaData) (pos1 : ℚ) (st : AspState) (p2 : PlanetaData) :
    AspState :=
  if parVisto st.procesados p1.nombre p2.nombre then st
  else
    let procesados2 := (p1.nombre, p2.nombre) :: st.procesados
    let pos2 := posicionAbsoluta p2.signo p2.grado
    let distancia := calcularDistanciaAngular pos1 pos2
    match detectarAspecto distancia with
    | none => ⟨procesados2, st.mapa⟩
    | some td =>
      let exacto : Bool := if td.2 ≤ 3 then true else false
      let r1 : AspRec := ⟨td.1, p2.nombre, round2 td.2, exacto⟩
      let r2 : AspRec := ⟨td.1, p1.nombre, round2 td.2, exacto⟩
      ⟨procesados2, bumpAsp (bumpAsp st.mapa p1.nombre r1) p2.nombre r2⟩

/-- Outer loop of `calcular_aspectos_carta` (`p1 = planetas[i]`, inner loop
over `planetas[i+1:]`). -/
def aspOuter : AspState → List PlanetaData → AspState
  | st, [] => st
  | st, p1 :: rest =>
      aspOuter (rest.foldl (aspStep p1 (posicionAbsoluta p1.signo p1.grado)) st) rest

/-- `calcular_aspectos_carta`, returning the per-body aspect map. -/
def calcularAspectosCarta (planetas : List PlanetaData) : String → List AspRec :=
  (aspOuter ⟨[], fun _ => []⟩ planetas).mapa

-- ===========================================================================
-- Tree paths
-- ===========================================================================

/-- One entry of a `senderos_ocupacion` list. -/
structure SenderoOcup where
  numero : ℕ
  nombre : String
  arcano : ℕ
  conectaCon : String
  elemento : String
deriving Repr, DecidableEq

/-- `senderos_de_sephirah`: structural paths of one sephirah. -/
def senderosDeSephirah (sephirah : String) : List SenderoOcup :=
  if sephirah = "Daath" then []
  else
    senderosArbol.filterMap fun s =>
      if sephirah = s.sephiroth.1 ∨ sephirah = s.sephiroth.2 then
        some ⟨s.numero, s.nombre, s.arcano,
          (if s.sephiroth.1 ≠ sephirah then s.sephiroth.1
           else if s.sephiroth.2 ≠ sephirah then s.sephiroth.2 else "N/A"),
          s.elemento⟩
      else none

/-- Equality of `{s1, s2}` and `{a, b}` as sets of strings (the comparison
`set([seph1, seph2]) == set(datos['sephiroth'])` of the source). -/
def setPairEq (s1 s2 a b : String) : Prop :=
  (s1 = a ∨ s1 = b) ∧ (s2 = a ∨ s2 = b) ∧ (a = s1 ∨ a = s2) ∧ (b = s1 ∨ b = s2)

instance (s1 s2 a b : String) : Decidable (setPairEq s1 s2 a b) := by
  unfold setPairEq; infer_instance

/-- First entry of the path table whose endpoint set equals `{s1, s2}` (the
`for num, datos in SENDEROS_ARBOL.items()` search). -/
def buscaSendero (s1 s2 : String) : List Sendero → Option Sendero
  | [] => none
  | s :: resto =>
    if setPairEq s1 s2 s.sephiroth.1 s.sephiroth.2 then some s
    else buscaSendero s1 s2 resto

/-- `buscar_sendero_entre_sephiroth`. -/
def buscarSenderoEntreSephiroth (seph1 seph2 : String) : Option Sendero :=
  if seph1 = "Daath" ∨ seph2 = "Daath" then none
  else buscaSendero seph1 seph2 senderosArbol

-- ===========================================================================
-- Ontology records and critical paths
-- ===========================================================================

/-- One entry of a `senderos_aspectos` list. -/
structure SenderoAsp where
  sendero : Sendero
  aspecto : AspRec
deriving Repr, DecidableEq

/-- One entry of the critical-path list of `detectar_senderos_criticos`. -/
structure Crit where
  sendero : Sendero
  planetas : List String
  aspecto : AspRec
  pesoCombinado : ℚ
  urgencia : String
deriving Repr, DecidableEq

/-- The `PlanetaSAVP` dataclass (fields feeding claim-relevant computation;
the glyph field and the never-assigned `dispositor` default are omitted). -/
structure PlanetaSAVP where
  nombre : String
  grado : ℚ
  signo : String
  casa : ℤ
  retrogrado : Bool
  sephirah : String
  pilar : String
  dignidad : String
  pesoEsencial : ℚ
  M_casa : ℚ
  M_retro : ℚ
  M_aspectos : ℚ
  pesoFinal : ℚ
  genioNumero : ℤ
  aspectos : List AspRec
  senderosOcupacion : List SenderoOcup
  senderosAspectos : List SenderoAsp
  senderosCriticos : List Crit
deriving Repr, DecidableEq

/-- Inner loop of `detectar_senderos_criticos` over the aspect list of `p1`,
threading the processed-pair set and the accumulated critical list. -/
def critInner (todos : List PlanetaSAVP) (p1 : PlanetaSAVP) :
    List AspRec → List (String × String) × List Crit →
    List (String × String) × List Crit
  | [], st => st
  | a :: rest, st =>
    match todos.find? (fun p => p.nombre == a.con) with
    | none => critInner todos p1 rest st
    | some p2 =>
      if parVisto st.1 p1.nombre p2.nombre then critInner todos p1 rest st
      else
        match buscarSenderoEntreSephiroth p1.sephirah p2.sephirah with
        | none => critInner todos p1 rest ((p1.nombre, p2.nombre) :: st.1, st.2)
        | some s =>
          let urgencia := if a.tipo = "oposicion" ∨ a.tipo = "cuadratura"
            then "ALTA" else "MEDIA"
          critInner todos p1 rest ((p1.nombre, p2.nombre) :: st.1,
            st.2 ++ [⟨s, [p1.nombre, p2.nombre], a,
              round2 (p1.pesoFinal + p2.pesoFinal), urgencia⟩])

/-- Outer loop of `detectar_senderos_criticos`. -/
def critOuter (todos : List PlanetaSAVP) :
    List PlanetaSAVP → List (String × String) × List Crit →
    List (String × String) × List Crit
  | [], st => st
  | p :: rest, st => critOuter todos rest (critInner todos p p.aspectos st)

/-- Insertion into a list sorted descending by `peso_combinado`, keeping the
inserted element before elements of equal key (stability of `list.sort`). -/
def insCritDesc (x : Crit) : List Crit → List Crit
  | [] => [x]
  | y :: ys => if y.pesoCombinado > x.pesoCombinado then y :: insCritDesc x ys
               else x :: y :: ys

/-- Stable descending sort by `peso_combinado`, the effect of
`criticos.sort(key=..., reverse=True)`. -/
def sortCritDesc : List Crit → List Crit
  | [] => []
  | x :: xs => insCritDesc x (sortCritDesc xs)

/-- `detectar_senderos_criticos`. -/
def detectarSenderosCriticos (planetasSavp : List PlanetaSAVP) : List Crit :=
  sortCritDesc (critOuter planetasSavp planetasSavp ([], [])).2

-- ===========================================================================
-- Dispositor graph
-- ===========================================================================

/-- Input record of `construir_grafo_dispositores` (the dictionaries built in
step 5 of the pipeline, which always carry `peso_final`). -/
structure PlanetaDict where
  nombre : String
  signo : String
  retrogrado : Bool
  pesoFinal : ℚ
deriving Repr, DecidableEq

/-- One node of the dispositor graph. -/
structure Nodo where
  dispositor : Option String
  retrogrado : Bool
  sephirah : Option String
  peso : ℚ
deriving Repr, DecidableEq

/-- Builtin exceptions raised by `savp_v36_core_completo.py`. -/
inductive CoreErr where
  | zeroDivisionError : CoreErr
  | keyError : String → CoreErr
deriving Repr, DecidableEq

/-- Dictionary assignment `nodos[nombre] = ...`: replace in place when the
key exists, append otherwise (Python dicts keep first-insertion order). -/
def upsert (l : List (String × Nodo)) (k : String) (v : Nodo) :
    List (String × Nodo) :=
  match l with
  | [] => [(k, v)]
  | e :: t => if e.1 = k then (k, v) :: t else e :: upsert t k v

/-- The `nodos` dictionary of `construir_grafo_dispositores`.  A ruler equal
to the body itself gives `dispositor = None` (a motor); `REGENCIAS` values
are never the empty string, so Python truthiness coincides with `Option`. -/
def construirNodos (planetas : List PlanetaDict) : List (String × Nodo) :=
  planetas.foldl
    (fun nodos p =>
      let signo := normalizarSigno p.signo
      let disp0 := regencias signo
      let disp := if disp0 = some p.nombre then none else disp0
      upsert nodos p.nombre ⟨disp, p.retrogrado, planetaSephirah p.nombre, p.pesoFinal⟩)
    []

/-- Counter increment `d[k] = d.get(k, 0) + 1` on an association list. -/
def bumpCount (l : List (String × ℕ)) (k : String) : List (String × ℕ) :=
  match l with
  | [] => [(k, 1)]
  | e :: t => if e.1 = k then (e.1, e.2 + 1) :: t else e :: bumpCount t k

/-- The `dispositores_count` dictionary: per-target in-degree. -/
def dispositoresCount (nodos : List (String × Nodo)) : List (String × ℕ) :=
  nodos.foldl
    (fun acc e => match e.2.dispositor with
      | some d => bumpCount acc d
      | none => acc)
    []

/-- Sum of the values of a counter dictionary. -/
def sumVals (l : List (String × ℕ)) : ℕ := (l.map fun e => e.2).sum

/-- Dictionary read `nodos[k]` (`none` encodes a KeyError). -/
def lookupNodo (nodos : List (String × Nodo)) (k : String) : Option Nodo :=
  (nodos.find? fun e => e.1 == k).map fun e => e.2

/-- The `while` loop of the cycle search started at `inicio`.  Every pass
adds one previously unvisited key of `nodos` to `visitados`, so with fuel
`nodos.length + 1` the fuel-exhaustion branch is unreachable. -/
def cicloAux (nodos : List (String × Nodo)) (inicio : String) :
    List String → List String → Option String → ℕ →
    Except CoreErr (Option (List String))
  | _, _, _, 0 => .ok none
  | visitados, camino, actual, fuel+1 =>
    match actual with
    | none => .ok none
    | some a =>
      if a ∈ visitados then .ok none
      else
        match lookupNodo nodos a with
        | none => .error (.keyError a)
        | some nd =>
          let camino2 := camino ++ [a]
          if nd.dispositor = some inicio ∧ camino2.length > 1 then
            .ok (some (camino2 ++ [inicio]))
          else cicloAux nodos inicio (a :: visitados) camino2 nd.dispositor fuel

/-- The `for inicio in nodos.keys()` loop collecting `bucles`. -/
def buclesList (nodos : List (String × Nodo)) :
    List String → Except CoreErr (List (List String))
  | [] => .ok []
  | k :: ks =>
    match cicloAux nodos k [] [] (some k) (nodos.length + 1) with
    | .error e => .error e
    | .ok none => buclesList nodos ks
    | .ok (some c) =>
      match buclesList nodos ks with
      | .error e => .error e
      | .ok rest => .ok (c :: rest)

/-- Result record of `construir_grafo_dispositores`. -/
structure Grafo where
  nodos : List (String × Nodo)
  convergencias : List String
  valvulas : List String
  motores : List String
  bucles : List (List String)
deriving Repr, DecidableEq

/-- `construir_grafo_dispositores`. -/
def construirGrafoDispositores (planetas : List PlanetaDict) :
    Except CoreErr Grafo :=
  let nodos := construirNodos planetas
  let convergencias := (dispositoresCount nodos).filterMap fun e =>
    if e.2 > 1 then some e.1 else none
  let valvulas := nodos.filterMap fun e =>
    if e.2.retrogrado then some e.1 else none
  let motores := nodos.filterMap fun e =>
    if e.2.dispositor = none then some e.1 else none
  match buclesList nodos (nodos.map fun e => e.1) with
  | .error e => .error e
  | .ok bucles => .ok ⟨nodos, convergencias, valvulas, motores, bucles⟩

-- ===========================================================================
-- Full chart analysis
-- ===========================================================================

/-- One value of the `planetas_raw` request dictionary. -/
structure RawPlaneta where
  grado : ℚ
  signo : String
  casa : ℤ
  retrogrado : Bool
deriving Repr, DecidableEq

/-- Step 1 of `procesar_carta_savp_v36_completa`: keep the recognised names,
renamed through `nombre_map`. -/
def planetasLista (raw : List (String × RawPlaneta)) : List PlanetaData :=
  raw.filterMap fun e =>
    (nombreMap e.1).map fun nombre =>
      ⟨nombre, e.2.grado, e.2.signo, e.2.casa, e.2.retrogrado⟩

/-- Step 3: build one `PlanetaSAVP`.  Every name produced by `nombre_map` is
a key of PLANETA_SEPHIRAH, so the `getD` default is unreachable there. -/
def buildPlanetaSAVP (mapa : String → List AspRec) (pd : PlanetaData) :
    PlanetaSAVP :=
  let sephirah := (planetaSephirah pd.nombre).getD ""
  let aspectos := mapa pd.nombre
  let aspectosExactos := (aspectos.filter fun a => a.exacto).length
  let pond := calcularPesoFinalV36 pd aspectosExactos
  { nombre := pd.nombre
    grado := pd.grado
    signo := normalizarSigno pd.signo
    casa := pd.casa
    retrogrado := pd.retrogrado
    sephirah := sephirah
    pilar := sephirahPilar sephirah
    dignidad := pond.dignidad
    pesoEsencial := pond.pesoEsencial
    M_casa := pond.M_casa
    M_retro := pond.M_retro
    M_aspectos := pond.M_aspectos
    pesoFinal := pond.pesoFinal
    genioNumero := calcularGenioNumero pd.grado pd.signo
    aspectos := aspectos
    senderosOcupacion := senderosDeSephirah sephirah
    senderosAspectos := []
    senderosCriticos := [] }

/-- Step 4: the `senderos_aspectos` list of one body.  The source looks the
partner up by name in the same list it is updating; only the unchanged
fields `nombre` and `sephirah` of the partner are read. -/
def senderosAspectosDe (todos : List PlanetaSAVP) (p : PlanetaSAVP) :
    List SenderoAsp :=
  p.aspectos.filterMap fun a =>
    match todos.find? (fun pl => pl.nombre == a.con) with
    | none => none
    | some p2 => (buscarSenderoEntreSephiroth p.sephirah p2.sephirah).map
        fun s => ⟨s, a⟩

/-- One pillar accumulator. -/
structure PilarInfo where
  pesoTotal : ℚ
  planetas : List (String × ℚ)
deriving Repr, DecidableEq

/-- The three-pillar dictionary in insertion order. -/
structure Pilares where
  izquierdo : PilarInfo
  central : PilarInfo
  derecho : PilarInfo
deriving Repr, DecidableEq

/-- One pass of the pillar-aggregation loop; `pilares[p.pilar]` on any other
string is a KeyError. -/
def addPilar (ps : Pilares) (p : PlanetaSAVP) : Except CoreErr Pilares :=
  if p.pilar = "izquierdo" then
    .ok { ps with izquierdo := ⟨ps.izquierdo.pesoTotal + p.pesoFinal,
      ps.izquierdo.planetas ++ [(p.nombre, p.pesoFinal)]⟩ }
  else if p.pilar = "central" then
    .ok { ps with central := ⟨ps.central.pesoTotal + p.pesoFinal,
      ps.central.planetas ++ [(p.nombre, p.pesoFinal)]⟩ }
  else if p.pilar = "derecho" then
    .ok { ps with derecho := ⟨ps.derecho.pesoTotal + p.pesoFinal,
      ps.derecho.planetas ++ [(p.nombre, p.pesoFinal)]⟩ }
  else .error (.keyError p.pilar)

/-- The pillar-aggregation loop. -/
def foldPilares : Pilares → List PlanetaSAVP → Except CoreErr Pilares
  | ps, [] => .ok ps
  | ps, p :: rest =>
    match addPilar ps p with
    | .error e => .error e
    | .ok ps2 => foldPilares ps2 rest

/-- The `porcentajes` dictionary. -/
structure Porcentajes where
  izquierdo : ℚ
  central : ℚ
  derecho : ℚ
deriving Repr, DecidableEq

/-- The `diagnostico` record. -/
structure Diagnostico where
  pilarDominante : String
  porcentajeDominante : ℚ
  tipo : String
deriving Repr, DecidableEq

/-- The full report (serialisation step 7 reshapes these same values). -/
structure Report where
  planetasSavp : List PlanetaSAVP
  pilares : Pilares
  porcentajes : Porcentajes
  cadenaDispositores : Grafo
  senderosCriticosResumen : List Crit
  diagnostico : Diagnostico
deriving Repr, DecidableEq

/-- Python `max(items, key=...)`: first item of maximal key, scanning in
iteration order starting from `primero`. -/
def maxPorcentaje (l : List (String × ℚ)) (primero : String × ℚ) : String × ℚ :=
  l.foldl (fun best x => if x.2 > best.2 then x else best) primero

/-- Steps 2 to 4 of `procesar_carta_savp_v36_completa`: aspects, the SAVP
records, and their `senderos_aspectos` lists. -/
def savpStage (lista : List PlanetaData) : List PlanetaSAVP :=
  let mapa := calcularAspectosCarta lista
  let savp0 := lista.map (buildPlanetaSAVP mapa)
  savp0.map fun p => { p with senderosAspectos := senderosAspectosDe savp0 p }

/-- Attachment of the per-body critical list (the last loop of step 4). -/
def savpConCriticos (savp1 : List PlanetaSAVP) (criticos : List Crit) :
    List PlanetaSAVP :=
  savp1.map fun p =>
    { p with senderosCriticos := criticos.filter fun c => c.planetas.contains p.nombre }

/-- Steps 2 to 6 of `procesar_carta_savp_v36_completa` on the prepared body
list.  A zero pillar total makes the percentage comprehension raise
ZeroDivisionError (Python float division by `0.0`). -/
def procesarLista (lista : List PlanetaData) : Except CoreErr Report :=
  let savp1 := savpStage lista
  let criticos := detectarSenderosCriticos savp1
  let savp2 := savpConCriticos savp1 criticos
  let dicts := savp2.map fun p => PlanetaDict.mk p.nombre p.signo p.retrogrado p.pesoFinal
  match construirGrafoDispositores dicts with
  | .error e => .error e
  | .ok grafo =>
    match foldPilares ⟨⟨0, []⟩, ⟨0, []⟩, ⟨0, []⟩⟩ savp2 with
    | .error e => .error e
    | .ok pil =>
      let total := pil.izquierdo.pesoTotal + pil.central.pesoTotal + pil.derecho.pesoTotal
      if total = 0 then .error .zeroDivisionError
      else
        let porc : Porcentajes :=
          ⟨round1 (pil.izquierdo.pesoTotal / total * 100),
           round1 (pil.central.pesoTotal / total * 100),
           round1 (pil.derecho.pesoTotal / total * 100)⟩
        let pilarMax := maxPorcentaje
          [("central", porc.central), ("derecho", porc.derecho)]
          ("izquierdo", porc.izquierdo)
        .ok ⟨savp2, pil, porc, grafo, criticos,
          ⟨pilarMax.1, pilarMax.2,
           if pilarMax.2 < 40 then "equilibrio" else "dominante"⟩⟩

/-- `procesar_carta_savp_v36_completa` (the unused `subject` argument of the
source is dropped). -/
def procesarCartaSavpV36Completa (raw : List (String × RawPlaneta)) :
    Except CoreErr Report :=
  procesarLista (planetasLista raw)

-- ===========================================================================
-- Solar-return root finder of main.py
-- ===========================================================================

/-- Exceptions of `find_solar_return_dt_utc`: every raise in `main.py` is the
builtin `RuntimeError`, distinguished only by its message string. -/
inductive SRErr where
  | runtimeError : String → SRErr
deriving Repr, DecidableEq

/-- `_wrap_diff_deg`: difference wrapped into [-180, 180). -/
def wrapDiffDeg (lon target : ℚ) : ℚ := pymod (lon - target + 540) 360 - 180

/-- The 6-hour bracket scan of `find_solar_return_dt_utc`: walk
`cur = a + 0.25 * j` while `cur <= b`, stopping at the first sign change.
Returns the bracket (if any) and the number of `diff` evaluations performed.
The finder window has `b - cur = 39/4` at entry, so any fuel above 39 gives
the same result (`scanAux_fuel_irrel`); the finder passes 41. -/
def scanAux (diff : ℚ → ℚ) (b : ℚ) :
    ℚ → ℚ → ℚ → ℕ → Option (ℚ × ℚ × ℚ × ℚ) × ℕ
  | _, _, _, 0 => (none, 0)
  | prevJd, prevF, cur, fuel+1 =>
    if cur ≤ b then
      let curF := diff cur
      if prevF * curF ≤ 0 then (some (prevJd, cur, prevF, curF), 1)
      else
        let r := scanAux diff b cur curF (cur + 1/4) fuel
        (r.1, r.2 + 1)
    else (none, 0)

/-- One bisection pass on the bracket `(a, b, fa, fb)`. -/
def bisectStep (diff : ℚ → ℚ) (st : ℚ × ℚ × ℚ × ℚ) : ℚ × ℚ × ℚ × ℚ :=
  let mid := (st.1 + st.2.1) / 2
  let fm := diff mid
  if st.2.2.1 * fm ≤ 0 then (st.1, mid, st.2.2.1, fm) else (mid, st.2.1, fm, st.2.2.2)

/-- The `for _ in range(n)` bisection loop. -/
def bisectLoop (diff : ℚ → ℚ) : ℕ → ℚ × ℚ × ℚ × ℚ → ℚ × ℚ × ℚ × ℚ
  | 0, st => st
  | n+1, st => bisectLoop diff n (bisectStep diff st)

/-- `find_solar_return_dt_utc` on the oracle timebase: the natal instant
fixes the target longitude, the window is `center +- 5` days, a bracket is
the endpoints when their diffs multiply nonpositively and otherwise comes
from the 6-hour scan, and 60 bisection passes end in the final midpoint.
The conversion of the returned julian day back to a calendar datetime is
presentation and is not modelled. -/
def findSolarReturn (sunLon : ℚ → ℚ) (jdNatal jdCenter : ℚ) : Except SRErr ℚ :=
  let target := sunLon jdNatal
  let diff := fun jd => wrapDiffDeg (sunLon jd) target
  let jd0 := jdCenter - 5
  let jd1 := jdCenter + 5
  let fa := diff jd0
  let fb := diff jd1
  let bracket : Option (ℚ × ℚ × ℚ × ℚ) :=
    if fa * fb > 0 then (scanAux diff jd1 jd0 fa (jd0 + 1/4) 41).1
    else some (jd0, jd1, fa, fb)
  match bracket with
  | none => .error (.runtimeError "No se pudo acotar el retorno solar (ventana insuficiente).")
  | some st =>
    let stFin := bisectLoop diff 60 st
    .ok ((stFin.1 + stFin.2.1) / 2)

-- ===========================================================================
-- Theorems
-- ===========================================================================

theorem calcularDignidad_peso (p s : String) :
    (calcularDignidad p s).2 = 3 ∨ (calcularDignidad p s).2 = 2 ∨
    (calcularDignidad p s).2 = 1 ∨ (calcularDignidad p s).2 = 1/2 ∨
    (calcularDignidad p s).2 = 1/4 := by
  unfold calcularDignidad
  rcases dignidadesCanonicas p with _ | digs
  · simp
  · dsimp only
    split_ifs <;> norm_num

/-- C6: for every body record and every exact-aspect count, the computed
final weight is strictly positive and at most
`3.0 * 1.20 * 1.00 * 1.35 = 4.86`, and the aspect multiplier equals
`1.00 + min(exact_count * 0.07, 0.35)` and is hence capped at `1.35`.  The
bounds hold for the stored (2-decimal-rounded) weight, as in the source. -/
theorem c6_final_weight_bounds (pd : PlanetaData) (k : ℕ) :
    0 < (calcularPesoFinalV36 pd k).pesoFinal ∧
    (calcularPesoFinalV36 pd k).pesoFinal ≤ 3 * (6/5) * 1 * (27/20) ∧
    (calcularPesoFinalV36 pd k).M_aspectos = 1 + min ((k : ℚ) * (7/100)) (35/100) := by
  have hbase := calcularDignidad_peso pd.nombre pd.signo
  unfold calcularPesoFinalV36
  dsimp only
  set pb := (calcularDignidad pd.nombre pd.signo).2 with hpbdef
  have hpb : 1/4 ≤ pb ∧ pb ≤ 3 := by
    rcases hbase with h | h | h | h | h <;> rw [h] <;> norm_num
  set Mc : ℚ := (if pd.casa = 1 ∨ pd.casa = 4 ∨ pd.casa = 7 ∨ pd.casa = 10 then 6/5
    else if pd.casa = 2 ∨ pd.casa = 5 ∨ pd.casa = 8 ∨ pd.casa = 11 then 1
    else 17/20) with hMcdef
  have hMc : 17/20 ≤ Mc ∧ Mc ≤ 6/5 := by
    rw [hMcdef]; split_ifs <;> norm_num
  set Mr : ℚ := (if pd.retrogrado then 9/10 else 1) with hMrdef
  have hMr : 9/10 ≤ Mr ∧ Mr ≤ 1 := by
    rw [hMrdef]; split_ifs <;> norm_num
  set Ma : ℚ := 1 + min ((k : ℚ) * (7/100)) (35/100) with hMadef
  have hMa : 1 ≤ Ma ∧ Ma ≤ 27/20 := by
    constructor
    · have h0 : (0:ℚ) ≤ min ((k : ℚ) * (7/100)) (35/100) :=
        le_min (by positivity) (by norm_num)
      rw [hMadef]; linarith
    · have h1 : min ((k : ℚ) * (7/100)) (35/100) ≤ 35/100 := min_le_right _ _
      rw [hMadef]; linarith
  clear_value pb Mc Mr Ma
  have h1 : 1/4 * (17/20) ≤ pb * Mc :=
    mul_le_mul hpb.1 hMc.1 (by norm_num) (by linarith [hpb.1])
  have h2 : pb * Mc ≤ 3 * (6/5) :=
    mul_le_mul hpb.2 hMc.2 (by linarith [hMc.1]) (by norm_num)
  have h3 : 1/4 * (17/20) * (9/10) ≤ pb * Mc * Mr :=
    mul_le_mul h1 hMr.1 (by norm_num) (by linarith [h1])
  have h4 : pb * Mc * Mr ≤ 3 * (6/5) * 1 :=
    mul_le_mul h2 hMr.2 (by linarith [hMr.1]) (by norm_num)
  have h5 : 1/4 * (17/20) * (9/10) * 1 ≤ pb * Mc * Mr * Ma :=
    mul_le_mul h3 hMa.1 (by norm_num) (by linarith [h3])
  have h6 : pb * Mc * Mr * Ma ≤ 3 * (6/5) * 1 * (27/20) :=
    mul_le_mul h4 hMa.2 (by linarith [hMa.1]) (by norm_num)
  refine ⟨?_, ?_, rfl⟩
  · exact round2_pos (by linarith)
  · have := round2_le_of_le (x := pb * Mc * Mr * Ma) (n := 486) (by push_cast; linarith)
    calc round2 (pb * Mc * Mr * Ma) ≤ (486 : ℤ) / 100 := this
    _ ≤ 3 * (6/5) * 1 * (27/20) := by norm_num

/-- Concrete body used to refute C1: Sol in Leo, house 3, direct, with one
exact aspect. -/
def c1Planeta : PlanetaData := ⟨"Sol", 10, "Leo", 3, false⟩

/-- C1 counterexample: for Sol in Leo in house 3 with one exact aspect, the
weight the source retains (`peso_final`, rounded inside
`calcular_peso_final_v36` to `2.73`) differs from the full-precision product
`3.0 * 0.85 * 1.00 * 1.07 = 2.7285` of the returned factors, so the value
consumed by all downstream arithmetic is not the full-precision product. -/
theorem c1_counterexample :
    (calcularPesoFinalV36 c1Planeta 1).pesoFinal = 273/100 ∧
    (calcularPesoFinalV36 c1Planeta 1).pesoEsencial *
      (calcularPesoFinalV36 c1Planeta 1).M_casa *
      (calcularPesoFinalV36 c1Planeta 1).M_retro *
      (calcularPesoFinalV36 c1Planeta 1).M_aspectos = 27285/10000 ∧
    (calcularPesoFinalV36 c1Planeta 1).pesoFinal ≠
      (calcularPesoFinalV36 c1Planeta 1).pesoEsencial *
      (calcularPesoFinalV36 c1Planeta 1).M_casa *
      (calcularPesoFinalV36 c1Planeta 1).M_retro *
      (calcularPesoFinalV36 c1Planeta 1).M_aspectos := by
  refine ⟨?_, ?_, ?_⟩ <;>
    norm_num [c1Planeta, calcularPesoFinalV36, calcularDignidad, dignidadesCanonicas,
      normalizarSigno, round2, rhe]

theorem insCritDesc_mem (c x : Crit) (l : List Crit) :
    c ∈ insCritDesc x l ↔ c = x ∨ c ∈ l := by
  induction l with
  | nil => simp [insCritDesc]
  | cons y ys ih =>
    unfold insCritDesc
    split_ifs <;> simp only [List.mem_cons, ih] <;> tauto

theorem sortCritDesc_mem (c : Crit) (l : List Crit) :
    c ∈ sortCritDesc l ↔ c ∈ l := by
  induction l with
  | nil => simp [sortCritDesc]
  | cons x xs ih =>
    unfold sortCritDesc
    rw [insCritDesc_mem]
    simp only [List.mem_cons, ih]

/-- Provenance of every record accumulated by `detectar_senderos_criticos`:
it comes from two members of the input list joined by a found path, carries
their names, and its combined weight is the re-rounded sum of their stored
`peso_final` values. -/
def CritShape (l : List PlanetaSAVP) (c : Crit) : Prop :=
  ∃ p1 ∈ l, ∃ p2 ∈ l,
    c.planetas = [p1.nombre, p2.nombre] ∧
    c.pesoCombinado = round2 (p1.pesoFinal + p2.pesoFinal) ∧
    (buscarSenderoEntreSephiroth p1.sephirah p2.sephirah).isSome = true

theorem critInner_shape (todos : List PlanetaSAVP) (p1 : PlanetaSAVP)
    (hp1 : p1 ∈ todos) :
    ∀ (asps : List AspRec) (st : List (String × String) × List Crit),
      (∀ c ∈ st.2, CritShape todos c) →
      ∀ c ∈ (critInner todos p1 asps st).2, CritShape todos c := by
  intro asps
  induction asps with
  | nil => intro st hst; exact hst
  | cons a rest ih =>
    intro st hst
    unfold critInner
    cases hfind : todos.find? (fun p => p.nombre == a.con) with
    | none => exact ih st hst
    | some p2 =>
      have hp2 : p2 ∈ todos := List.mem_of_find?_eq_some hfind
      by_cases hv : parVisto st.1 p1.nombre p2.nombre
      · simp only [hv, if_pos]
        exact ih st hst
      · simp only [hv, if_neg, not_false_iff]
        cases hbus : buscarSenderoEntreSephiroth p1.sephirah p2.sephirah with
        | none => exact ih _ hst
        | some s =>
          apply ih
          intro c hc
          rcases List.mem_append.mp hc with hc | hc
          · exact hst c hc
          · have hc0 : c = ⟨s, [p1.nombre, p2.nombre], a,
                round2 (p1.pesoFinal + p2.pesoFinal),
                if a.tipo = "oposicion" ∨ a.tipo = "cuadratura" then "ALTA" else "MEDIA"⟩ := by
              simpa using hc
            subst hc0
            exact ⟨p1, hp1, p2, hp2, rfl, rfl, by rw [hbus]; rfl⟩

theorem critOuter_shape (todos : List PlanetaSAVP) :
    ∀ (ps : List PlanetaSAVP) (st : List (String × String) × List Crit),
      (∀ p ∈ ps, p ∈ todos) →
      (∀ c ∈ st.2, CritShape todos c) →
      ∀ c ∈ (critOuter todos ps st).2, CritShape todos c := by
  intro ps
  induction ps with
  | nil => intro st _ hst; exact hst
  | cons p rest ih =>
    intro st hps hst
    unfold critOuter
    exact ih _ (fun q hq => hps q (List.mem_cons_of_mem _ hq))
      (critInner_shape todos p (hps p (List.mem_cons_self _ _)) p.aspectos st hst)

theorem detectarSenderosCriticos_shape (l : List PlanetaSAVP) (c : Crit)
    (hc : c ∈ detectarSenderosCriticos l) : CritShape l c := by
  unfold detectarSenderosCriticos at hc
  rw [sortCritDesc_mem] at hc
  exact critOuter_shape l l ([], []) (fun _ h => h) (fun _ h => by simp at h) c hc

theorem addPilar_total (ps ps2 : Pilares) (p : PlanetaSAVP)
    (h : addPilar ps p = .ok ps2) :
    ps2.izquierdo.pesoTotal + ps2.central.pesoTotal + ps2.derecho.pesoTotal =
      ps.izquierdo.pesoTotal + ps.central.pesoTotal + ps.derecho.pesoTotal +
      p.pesoFinal := by
  unfold addPilar at h
  split_ifs at h <;> cases h <;> dsimp <;> ring

theorem foldPilares_total (l : List PlanetaSAVP) :
    ∀ (ps res : Pilares), foldPilares ps l = .ok res →
      res.izquierdo.pesoTotal + res.central.pesoTotal + res.derecho.pesoTotal =
        ps.izquierdo.pesoTotal + ps.central.pesoTotal + ps.derecho.pesoTotal +
        (l.map fun p => p.pesoFinal).sum := by
  induction l with
  | nil =>
    intro ps res h
    cases h
    simp
  | cons p rest ih =>
    intro ps res h
    unfold foldPilares at h
    cases hadd : addPilar ps p with
    | error e => rw [hadd] at h; cases h
    | ok ps2 =>
      rw [hadd] at h
      have := ih ps2 res h
      have htot := addPilar_total ps ps2 p hadd
      simp only [List.map_cons, List.sum_cons]
      linarith

/-- C1 (amended): the weight retained for a body is the 2-decimal rounding
of the product `base * house * retro * aspect` computed inside
`calcular_peso_final_v36`, not the full-precision product; downstream
arithmetic consumes that rounded value: a critical path combines the stored
weights of its two bodies as `round2(w1 + w2)`, and the pillar totals are
sums of the stored (rounded) weights. -/
theorem c1_amended :
    (∀ (pd : PlanetaData) (k : ℕ),
      (calcularPesoFinalV36 pd k).pesoFinal =
        round2 ((calcularPesoFinalV36 pd k).pesoEsencial *
          (calcularPesoFinalV36 pd k).M_casa *
          (calcularPesoFinalV36 pd k).M_retro *
          (calcularPesoFinalV36 pd k).M_aspectos)) ∧
    (∀ (l : List PlanetaSAVP) (c : Crit), c ∈ detectarSenderosCriticos l →
      ∃ p1 ∈ l, ∃ p2 ∈ l,
        c.planetas = [p1.nombre, p2.nombre] ∧
        c.pesoCombinado = round2 (p1.pesoFinal + p2.pesoFinal)) ∧
    (∀ (l : List PlanetaSAVP) (ps res : Pilares), foldPilares ps l = .ok res →
      res.izquierdo.pesoTotal + res.central.pesoTotal + res.derecho.pesoTotal =
        ps.izquierdo.pesoTotal + ps.central.pesoTotal + ps.derecho.pesoTotal +
        (l.map fun p => p.pesoFinal).sum) := by
  refine ⟨fun pd k => rfl, fun l c hc => ?_, fun l ps res h => foldPilares_total l ps res h⟩
  obtain ⟨p1, hp1, p2, hp2, hpl, hpc, -⟩ := detectarSenderosCriticos_shape l c hc
  exact ⟨p1, hp1, p2, hp2, hpl, hpc⟩

/-- Concrete chart member used by witnesses: Sol with one exact conjunction
to Luna, stored weight 2.73. -/
def c1SolSavp : PlanetaSAVP :=
  { nombre := "Sol", grado := 10, signo := "Leo", casa := 3, retrogrado := false,
    sephirah := "Tiphareth", pilar := "central", dignidad := "domicilio",
    pesoEsencial := 3, M_casa := 17/20, M_retro := 1, M_aspectos := 107/100,
    pesoFinal := 273/100, genioNumero := 27,
    aspectos := [⟨"conjuncion", "Luna", 1, true⟩],
    senderosOcupacion := [], senderosAspectos := [], senderosCriticos := [] }

/-- Concrete chart member used by witnesses: Luna with one exact conjunction
to Sol, stored weight 0.91. -/
def c1LunaSavp : PlanetaSAVP :=
  { nombre := "Luna", grado := 11, signo := "Leo", casa := 3, retrogrado := false,
    sephirah := "Yesod", pilar := "central", dignidad := "peregrino",
    pesoEsencial := 1, M_casa := 17/20, M_retro := 1, M_aspectos := 107/100,
    pesoFinal := 91/100, genioNumero := 27,
    aspectos := [⟨"conjuncion", "Sol", 1, true⟩],
    senderosOcupacion := [], senderosAspectos := [], senderosCriticos := [] }

/-- The unique critical path of the two-body chart above. -/
def c1Crit : Crit :=
  ⟨⟨25, "Templanza", 14, ("Tiphareth", "Yesod"), "Sagitario"⟩,
   ["Sol", "Luna"], ⟨"conjuncion", "Luna", 1, true⟩, 91/25, "MEDIA"⟩

/-- Empty pillar accumulator. -/
def pilaresVacios : Pilares := ⟨⟨0, []⟩, ⟨0, []⟩, ⟨0, []⟩⟩

/-- Pillar accumulator after folding the single body `c1SolSavp`. -/
def c1PilRes : Pilares := ⟨⟨0, []⟩, ⟨273/100, [("Sol", 273/100)]⟩, ⟨0, []⟩⟩

theorem c1_witness :
    (c1Crit ∈ detectarSenderosCriticos [c1SolSavp, c1LunaSavp] ∧
      ∃ p1 ∈ [c1SolSavp, c1LunaSavp], ∃ p2 ∈ [c1SolSavp, c1LunaSavp],
        c1Crit.planetas = [p1.nombre, p2.nombre] ∧
        c1Crit.pesoCombinado = round2 (p1.pesoFinal + p2.pesoFinal)) ∧
    (foldPilares pilaresVacios [c1SolSavp] = .ok c1PilRes ∧
      c1PilRes.izquierdo.pesoTotal + c1PilRes.central.pesoTotal +
        c1PilRes.derecho.pesoTotal =
      pilaresVacios.izquierdo.pesoTotal + pilaresVacios.central.pesoTotal +
        pilaresVacios.derecho.pesoTotal +
        ([c1SolSavp].map fun p => p.pesoFinal).sum) := by
  have hmem : c1Crit ∈ detectarSenderosCriticos [c1SolSavp, c1LunaSavp] := by
    have h364 : round2 (273/100 + 91/100) = 91/25 := by norm_num [round2, rhe]
    have heva : detectarSenderosCriticos [c1SolSavp, c1LunaSavp] = [c1Crit] := by
      simp [detectarSenderosCriticos, critOuter, critInner, parVisto,
        buscarSenderoEntreSephiroth, buscaSendero, senderosArbol, setPairEq,
        sortCritDesc, insCritDesc, c1SolSavp, c1LunaSavp, c1Crit, h364]
    rw [heva]
    exact List.mem_singleton.mpr rfl
  have hfold : foldPilares pilaresVacios [c1SolSavp] = .ok c1PilRes := by
    simp [foldPilares, addPilar, c1SolSavp, pilaresVacios, c1PilRes]
  exact ⟨⟨hmem, c1_amended.2.1 _ _ hmem⟩, hfold, c1_amended.2.2 _ _ _ hfold⟩
theorem buscar_daath_left (s : String) :
    buscarSenderoEntreSephiroth "Daath" s = none := by
  unfold buscarSenderoEntreSephiroth
  rw [if_pos (Or.inl rfl)]

theorem buscar_daath_right (s : String) :
    buscarSenderoEntreSephiroth s "Daath" = none := by
  unfold buscarSenderoEntreSephiroth
  rw [if_pos (Or.inr rfl)]

theorem senderosAspectosDe_daath (todos : List PlanetaSAVP) (p : PlanetaSAVP)
    (h : p.sephirah = "Daath") : senderosAspectosDe todos p = [] := by
  unfold senderosAspectosDe
  rw [List.filterMap_eq_nil_iff]
  intro a _
  cases hf : todos.find? (fun pl => pl.nombre == a.con) with
  | none => rfl
  | some p2 => simp [h, buscar_daath_left]

theorem savpStage_pluton (lista : List PlanetaData) :
    ∀ p ∈ savpStage lista, p.nombre = "Pluton" →
      p.sephirah = "Daath" ∧ p.senderosAspectos = [] := by
  intro p hp hn
  unfold savpStage at hp
  simp only [List.mem_map] at hp
  obtain ⟨q, hq, rfl⟩ := hp
  obtain ⟨pd, _, rfl⟩ := hq
  have hpd : pd.nombre = "Pluton" := hn
  have hseph : (buildPlanetaSAVP (calcularAspectosCarta lista) pd).sephirah = "Daath" := by
    simp [buildPlanetaSAVP, hpd, planetaSephirah]
  exact ⟨hseph, senderosAspectosDe_daath _ _ hseph⟩

theorem criticos_pluton_free (savp1 : List PlanetaSAVP)
    (hinv : ∀ p ∈ savp1, p.nombre = "Pluton" → p.sephirah = "Daath") :
    ∀ c ∈ detectarSenderosCriticos savp1, "Pluton" ∉ c.planetas := by
  intro c hc
  obtain ⟨p1, hp1, p2, hp2, hpl, -, hsome⟩ := detectarSenderosCriticos_shape _ _ hc
  intro hmem
  rw [hpl] at hmem
  simp only [List.mem_cons, List.not_mem_nil, or_false] at hmem
  rcases hmem with h | h
  · rw [hinv p1 hp1 h.symm, buscar_daath_left] at hsome
    simp at hsome
  · rw [hinv p2 hp2 h.symm, buscar_daath_right] at hsome
    simp at hsome

theorem procesarLista_ok_fields (lista : List PlanetaData) (r : Report)
    (h : procesarLista lista = .ok r) :
    r.planetasSavp =
      savpConCriticos (savpStage lista) (detectarSenderosCriticos (savpStage lista)) ∧
    r.senderosCriticosResumen = detectarSenderosCriticos (savpStage lista) := by
  unfold procesarLista at h
  simp only [] at h
  split at h
  · cases h
  · split at h
    · cases h
    · split at h
      · cases h
      · cases h
        exact ⟨rfl, rfl⟩

/-- C9: for every input snapshot, the full analysis never involves Pluton in
a critical path: every record of the critical-path summary omits Pluton, and
every Pluton entry of the body list has empty `senderos_aspectos` and
`senderos_criticos` lists, because Pluton projects to Daath and
`buscar_sendero_entre_sephiroth` returns nothing for Daath. -/
theorem c9_pluton_excluded (raw : List (String × RawPlaneta)) :
    ((procesarCartaSavpV36Completa raw).toOption.all fun r =>
      (r.senderosCriticosResumen.all fun c => !(c.planetas.contains "Pluton")) &&
      (r.planetasSavp.all fun p => (p.nombre != "Pluton") ||
        (p.senderosAspectos.isEmpty && p.senderosCriticos.isEmpty))) = true := by
  cases hres : procesarCartaSavpV36Completa raw with
  | error e => rfl
  | ok r =>
    have hfields := procesarLista_ok_fields (planetasLista raw) r hres
    have hinv := savpStage_pluton (planetasLista raw)
    have hfree := criticos_pluton_free (savpStage (planetasLista raw))
      (fun p hp hn => (hinv p hp hn).1)
    simp only [Except.toOption, Option.all_some, Bool.and_eq_true, List.all_eq_true]
    constructor
    · intro c hc
      rw [hfields.2] at hc
      simp [hfree c hc]
    · intro p hp
      rw [hfields.1] at hp
      unfold savpConCriticos at hp
      simp only [List.mem_map] at hp
      obtain ⟨q, hq, rfl⟩ := hp
      by_cases hn : q.nombre = "Pluton"
      · simp only [Bool.or_eq_true, Bool.and_eq_true]
        right
        have hnot : ∀ c ∈ detectarSenderosCriticos (savpStage (planetasLista raw)),
            q.nombre ∉ c.planetas := by
          intro c hc
          rw [hn]
          exact hfree c hc
        have hqa : q.senderosAspectos = [] := (hinv q hq hn).2
        constructor
        · simp [hqa]
        · simp only [List.isEmpty_eq_true, List.filter_eq_nil_iff]
          intro c hc
          simpa using hnot c hc
      · simp only [Bool.or_eq_true]
        left
        simp [hn]

theorem planetasLista_eq_nil (raw : List (String × RawPlaneta))
    (h : (raw.all fun e => (nombreMap e.1).isNone) = true) :
    planetasLista raw = [] := by
  unfold planetasLista
  rw [List.filterMap_eq_nil_iff]
  intro e he
  rw [List.all_eq_true] at h
  have hnone := h e he
  rw [Option.isNone_iff_eq_none] at hnone
  rw [hnone]
  rfl

/-- C10: when the snapshot contains no recognised body name (for example an
empty map), the analysis produces no partial report: the pillar total is
zero and the percentage step raises ZeroDivisionError.  Consequently the
report completes only when at least one recognised body (whose weight is
positive by `c6_final_weight_bounds`) is present. -/
theorem c10_empty_snapshot_division (raw : List (String × RawPlaneta))
    (h : (raw.all fun e => (nombreMap e.1).isNone) = true) :
    procesarCartaSavpV36Completa raw = .error .zeroDivisionError := by
  unfold procesarCartaSavpV36Completa
  rw [planetasLista_eq_nil raw h]
  simp [procesarLista, savpStage, savpConCriticos, detectarSenderosCriticos,
    critOuter, sortCritDesc, calcularAspectosCarta, aspOuter,
    construirGrafoDispositores, construirNodos, dispositoresCount, buclesList,
    foldPilares]

theorem c10_witness :
    (([] : List (String × RawPlaneta)).all fun e => (nombreMap e.1).isNone) = true ∧
    procesarCartaSavpV36Completa [] = .error .zeroDivisionError :=
  ⟨rfl, c10_empty_snapshot_division [] rfl⟩

theorem detectarAspectoCon_perm (d : ℚ) {l1 l2 : List (String × ℚ × ℚ)}
    (h : l1.Perm l2) :
    (∀ e1 ∈ l1, ∀ e2 ∈ l1,
      |d - e1.2.1| ≤ e1.2.2 → |d - e2.2.1| ≤ e2.2.2 → e1 = e2) →
    detectarAspectoCon l1 d = detectarAspectoCon l2 d := by
  induction h with
  | nil => intro _; rfl
  | cons a h ih =>
    intro hu
    simp only [detectarAspectoCon]
    by_cases hpa : |d - a.2.1| ≤ a.2.2
    · simp [hpa]
    · simp only [hpa, if_neg, not_false_iff]
      exact ih fun x hx y hy =>
        hu x (List.mem_cons_of_mem _ hx) y (List.mem_cons_of_mem _ hy)
  | swap x y l =>
    intro hu
    simp only [detectarAspectoCon]
    by_cases hpy : |d - y.2.1| ≤ y.2.2 <;> by_cases hpx : |d - x.2.1| ≤ x.2.2 <;>
      simp [hpy, hpx]
    have hyx : y = x := hu y (by simp) x (by simp) hpy hpx
    rw [hyx]
    simp
  | trans h1 h2 ih1 ih2 =>
    intro hu
    refine (ih1 hu).trans (ih2 fun x hx y hy => ?_)
    exact hu x (h1.mem_iff.mpr hx) y (h1.mem_iff.mpr hy)

/-- C4: for every separation in [0, 180] at most one of the five reference
angles lies within its orb tolerance, so `detectar_aspecto` is unambiguous
and its result does not depend on the order in which the reference angles
are tested. -/
theorem c4_aspect_unambiguous (d : ℚ) (h0 : 0 ≤ d) (h180 : d ≤ 180) :
    (∀ e1 ∈ aspectosTable, ∀ e2 ∈ aspectosTable,
      |d - e1.2.1| ≤ e1.2.2 → |d - e2.2.1| ≤ e2.2.2 → e1 = e2) ∧
    (∀ L : List (String × ℚ × ℚ), L.Perm aspectosTable →
      detectarAspectoCon L d = detectarAspecto d) := by
  have huniq : ∀ e1 ∈ aspectosTable, ∀ e2 ∈ aspectosTable,
      |d - e1.2.1| ≤ e1.2.2 → |d - e2.2.1| ≤ e2.2.2 → e1 = e2 := by
    intro e1 he1 e2 he2 m1 m2
    simp only [aspectosTable, List.mem_cons, List.not_mem_nil, or_false] at he1 he2
    rcases he1 with rfl | rfl | rfl | rfl | rfl <;>
      rcases he2 with rfl | rfl | rfl | rfl | rfl <;>
      first
      | rfl
      | (exfalso
         rw [abs_le] at m1 m2
         norm_num at m1 m2
         obtain ⟨a1, a2⟩ := m1
         obtain ⟨b1, b2⟩ := m2
         linarith)
  exact ⟨huniq, fun L hL => detectarAspectoCon_perm d hL
    fun x hx y hy => huniq x (hL.mem_iff.mp hx) y (hL.mem_iff.mp hy)⟩

theorem c4_witness :
    ((0:ℚ) ≤ 90 ∧ (90:ℚ) ≤ 180) ∧
    (∀ e1 ∈ aspectosTable, ∀ e2 ∈ aspectosTable,
      |(90:ℚ) - e1.2.1| ≤ e1.2.2 → |(90:ℚ) - e2.2.1| ≤ e2.2.2 → e1 = e2) ∧
    (∀ L : List (String × ℚ × ℚ), L.Perm aspectosTable →
      detectarAspectoCon L 90 = detectarAspecto 90) ∧
    detectarAspecto 90 = some ("cuadratura", 0) := by
  have h := c4_aspect_unambiguous 90 (by norm_num) (by norm_num)
  exact ⟨⟨by norm_num, by norm_num⟩, h.1, h.2,
    by norm_num [detectarAspecto, detectarAspectoCon, aspectosTable]⟩

theorem upsert_keys_mem {l : List (String × Nodo)} {k : String} {v : Nodo}
    (n : String) :
    n ∈ (upsert l k v).map Prod.fst ↔ n ∈ l.map Prod.fst ∨ n = k := by
  induction l with
  | nil => simp [upsert]
  | cons e t ih =>
    unfold upsert
    split_ifs with he
    · subst he
      simp only [List.map_cons, List.mem_cons]
      tauto
    · simp only [List.map_cons, List.mem_cons, ih]
      tauto

theorem upsert_keys_nodup {l : List (String × Nodo)} {k : String} {v : Nodo}
    (h : (l.map Prod.fst).Nodup) : ((upsert l k v).map Prod.fst).Nodup := by
  induction l with
  | nil => simp [upsert]
  | cons e t ih =>
    unfold upsert
    rw [List.map_cons, List.nodup_cons] at h
    split_ifs with he
    · subst he
      simp only [List.map_cons, List.nodup_cons]
      exact h
    · simp only [List.map_cons, List.nodup_cons]
      refine ⟨?_, ih h.2⟩
      rw [upsert_keys_mem]
      rintro (hmem | rfl)
      · exact h.1 hmem
      · exact he rfl

theorem construirNodos_nodup (planetas : List PlanetaDict) :
    ((construirNodos planetas).map Prod.fst).Nodup := by
  unfold construirNodos
  suffices h : ∀ acc : List (String × Nodo), (acc.map Prod.fst).Nodup →
      ((planetas.foldl (fun nodos p =>
        upsert nodos p.nombre
          ⟨(if regencias (normalizarSigno p.signo) = some p.nombre then none
            else regencias (normalizarSigno p.signo)),
           p.retrogrado, planetaSephirah p.nombre, p.pesoFinal⟩) acc).map Prod.fst).Nodup by
    exact h [] (by simp)
  induction planetas with
  | nil => intro acc hacc; exact hacc
  | cons p rest ih =>
    intro acc hacc
    exact ih _ (upsert_keys_nodup hacc)

theorem filter_key_length_le_one (l : List (String × Nodo))
    (hnd : (l.map Prod.fst).Nodup) (n : String) (P : (String × Nodo) → Bool) :
    (l.filter fun e => e.1 == n && P e).length ≤ 1 := by
  induction l with
  | nil => simp
  | cons e t ih =>
    rw [List.map_cons, List.nodup_cons] at hnd
    rw [List.filter_cons]
    by_cases he : e.1 = n
    · have hnil : t.filter (fun e => e.1 == n && P e) = [] := by
        rw [List.filter_eq_nil_iff]
        intro x hx
        have hxn : x.1 ≠ n := by
          intro hxk
          apply hnd.1
          rw [he, ← hxk]
          exact List.mem_map_of_mem Prod.fst hx
        simp [hxn]
      cases hp : (e.1 == n && P e)
      · simp [hnil]
      · simp [hnil]
    · have hb : (e.1 == n && P e) = false := by
        simp [he]
      rw [hb]
      simpa using ih hnd.2

theorem sumVals_bumpCount (l : List (String × ℕ)) (k : String) :
    sumVals (bumpCount l k) = sumVals l + 1 := by
  induction l with
  | nil => simp [bumpCount, sumVals]
  | cons e t ih =>
    unfold bumpCount
    split_ifs
    · simp only [sumVals, List.map_cons, List.sum_cons]
      ring
    · simp only [sumVals, List.map_cons, List.sum_cons] at ih ⊢
      rw [ih]
      ring

theorem dispositoresCount_total (nodos : List (String × Nodo)) :
    sumVals (dispositoresCount nodos) =
      (nodos.filter fun e => e.2.dispositor.isSome).length := by
  unfold dispositoresCount
  suffices h : ∀ acc : List (String × ℕ),
      sumVals (nodos.foldl (fun acc e => match e.2.dispositor with
        | some d => bumpCount acc d
        | none => acc) acc) =
      sumVals acc + (nodos.filter fun e => e.2.dispositor.isSome).length by
    simpa [sumVals] using h []
  induction nodos with
  | nil => intro acc; simp
  | cons e t ih =>
    intro acc
    rw [List.foldl_cons, List.filter_cons]
    cases hd : e.2.dispositor with
    | none => simpa using ih acc
    | some d =>
      dsimp only
      rw [ih (bumpCount acc d), sumVals_bumpCount]
      simp
      omega

/-- C7: in the dispositor graph every node has at most one outgoing edge
(the node dictionary has no duplicate keys and each node carries one
optional dispositor), and the in-degrees summed over all edge targets equal
the number of nodes whose dispositor is not None. -/
theorem c7_graph_degrees (planetas : List PlanetaDict) :
    (∀ n : String,
      ((construirNodos planetas).filter
        fun e => e.1 == n && e.2.dispositor.isSome).length ≤ 1) ∧
    sumVals (dispositoresCount (construirNodos planetas)) =
      ((construirNodos planetas).filter fun e => e.2.dispositor.isSome).length :=
  ⟨fun n => filter_key_length_le_one _ (construirNodos_nodup planetas) n _,
   dispositoresCount_total _⟩

/-- Two-body mutual-rulership chart: Sol in Cancer (ruled by Luna) and Luna
in Leo (ruled by Sol). -/
def c8Planetas : List PlanetaDict :=
  [⟨"Sol", "Cancer", false, 1⟩, ⟨"Luna", "Leo", false, 1⟩]

/-- The graph the source builds for `c8Planetas`: the 2-cycle is recorded
twice, once per starting node. -/
def c8Grafo : Grafo :=
  { nodos := [("Sol", ⟨some "Luna", false, some "Tiphareth", 1⟩),
              ("Luna", ⟨some "Sol", false, some "Yesod", 1⟩)],
    convergencias := [],
    valvulas := [],
    motores := [],
    bucles := [["Sol", "Luna", "Sol"], ["Luna", "Sol", "Luna"]] }

theorem c8_eval : (construirGrafoDispositores c8Planetas).toOption = some c8Grafo := by
  decide

/-- C8 counterexample: on the two-body mutual-rulership chart the source
records the closed loop twice (`visitados` is reset for every start node),
so the cycle list does not have exactly one entry. -/
theorem c8_counterexample :
    ¬ ((construirGrafoDispositores c8Planetas).toOption.map
        fun g => g.bucles.length) = some 1 := by
  rw [c8_eval]
  decide

/-- C8 (amended): the cycle search restarts with a fresh visited set from
every node, so a closed loop through k nodes is recorded k times, once per
member; the two-body mutual-rulership chart yields exactly the two records
`[A, B, A]` and `[B, A, B]`. -/
theorem c8_amended :
    ((construirGrafoDispositores c8Planetas).toOption.map fun g => g.bucles) =
      some [["Sol", "Luna", "Sol"], ["Luna", "Sol", "Luna"]] := by
  rw [c8_eval]
  decide

-- ===========================================================================
-- Solar-return lemmas
-- ===========================================================================

theorem scanAux_none_pos (diff : ℚ → ℚ) (b : ℚ) :
    ∀ (n : ℕ) (prevJd prevF cur : ℚ), 0 < prevF →
      (∀ x : ℚ, cur ≤ x → x ≤ b → (∃ j : ℕ, x = cur + (j : ℚ) * (1/4)) → 0 < diff x) →
      (scanAux diff b prevJd prevF cur n).1 = none := by
  intro n
  induction n with
  | zero => intro prevJd prevF cur _ _; rfl
  | succ m ih =>
    intro prevJd prevF cur hpf hall
    simp only [scanAux]
    by_cases hcb : cur ≤ b
    · have hcur : 0 < diff cur := hall cur le_rfl hcb ⟨0, by push_cast; ring⟩
      have hprod : ¬ (prevF * diff cur ≤ 0) := not_le.mpr (mul_pos hpf hcur)
      rw [if_pos hcb, if_neg hprod]
      exact ih cur (diff cur) (cur + 1/4) hcur fun x hx1 hx2 hex => by
        obtain ⟨j, hj⟩ := hex
        exact hall x (by linarith) hx2 ⟨j + 1, by push_cast [hj]; ring⟩
    · rw [if_neg hcb]

theorem scanAux_none_neg (diff : ℚ → ℚ) (b : ℚ) :
    ∀ (n : ℕ) (prevJd prevF cur : ℚ), prevF < 0 →
      (∀ x : ℚ, cur ≤ x → x ≤ b → (∃ j : ℕ, x = cur + (j : ℚ) * (1/4)) → diff x < 0) →
      (scanAux diff b prevJd prevF cur n).1 = none := by
  intro n
  induction n with
  | zero => intro prevJd prevF cur _ _; rfl
  | succ m ih =>
    intro prevJd prevF cur hpf hall
    simp only [scanAux]
    by_cases hcb : cur ≤ b
    · have hcur : diff cur < 0 := hall cur le_rfl hcb ⟨0, by push_cast; ring⟩
      have hprod : ¬ (prevF * diff cur ≤ 0) := not_le.mpr (mul_pos_of_neg_of_neg hpf hcur)
      rw [if_pos hcb, if_neg hprod]
      exact ih cur (diff cur) (cur + 1/4) hcur fun x hx1 hx2 hex => by
        obtain ⟨j, hj⟩ := hex
        exact hall x (by linarith) hx2 ⟨j + 1, by push_cast [hj]; ring⟩
    · rw [if_neg hcb]

theorem findSolarReturn_noBracket (sunLon : ℚ → ℚ) (jdNatal jdCenter : ℚ)
    (h : (∀ k : ℕ, k ≤ 40 →
            0 < wrapDiffDeg (sunLon (jdCenter - 5 + (k : ℚ) * (1/4))) (sunLon jdNatal)) ∨
         (∀ k : ℕ, k ≤ 40 →
            wrapDiffDeg (sunLon (jdCenter - 5 + (k : ℚ) * (1/4))) (sunLon jdNatal) < 0)) :
    findSolarReturn sunLon jdNatal jdCenter =
      .error (.runtimeError "No se pudo acotar el retorno solar (ventana insuficiente).") := by
  simp only [findSolarReturn]
  set diff := fun jd => wrapDiffDeg (sunLon jd) (sunLon jdNatal) with hdiff
  have hepos : ∀ k : ℕ, k ≤ 40 → jdCenter - 5 + (k : ℚ) * (1/4) ≤ jdCenter + 5 := by
    intro k hk
    have : (k : ℚ) ≤ 40 := by exact_mod_cast hk
    linarith
  have h0eq : jdCenter - 5 + ((0 : ℕ) : ℚ) * (1/4) = jdCenter - 5 := by push_cast; ring
  have h40eq : jdCenter - 5 + ((40 : ℕ) : ℚ) * (1/4) = jdCenter + 5 := by push_cast; ring
  have hprobe : ∀ x : ℚ, jdCenter - 5 + 1/4 ≤ x → x ≤ jdCenter + 5 →
      (∃ j : ℕ, x = jdCenter - 5 + 1/4 + (j : ℚ) * (1/4)) →
      ∃ k : ℕ, k ≤ 40 ∧ x = jdCenter - 5 + (k : ℚ) * (1/4) := by
    intro x _ hxb hex
    obtain ⟨j, hj⟩ := hex
    refine ⟨j + 1, ?_, by push_cast [hj]; ring⟩
    have hxval : x = jdCenter - 5 + ((j : ℚ) + 1) * (1/4) := by rw [hj]; ring
    rw [hxval] at hxb
    have : ((j : ℚ) + 1) * (1/4) ≤ 10 := by linarith
    have hj40 : (j : ℚ) + 1 ≤ 40 := by linarith
    exact_mod_cast hj40
  rcases h with hpos | hneg
  · have hfa : 0 < diff (jdCenter - 5) := by
      have := hpos 0 (by norm_num)
      rwa [h0eq] at this
    have hfb : 0 < diff (jdCenter + 5) := by
      have := hpos 40 (by norm_num)
      rwa [h40eq] at this
    rw [if_pos (mul_pos hfa hfb)]
    rw [scanAux_none_pos diff (jdCenter + 5) 41 (jdCenter - 5) (diff (jdCenter - 5))
      (jdCenter - 5 + 1/4) hfa ?_]
    intro x hx1 hx2 hex
    obtain ⟨k, hk, hxk⟩ := hprobe x hx1 hx2 hex
    rw [hxk]
    exact hpos k hk
  · have hfa : diff (jdCenter - 5) < 0 := by
      have := hneg 0 (by norm_num)
      rwa [h0eq] at this
    have hfb : diff (jdCenter + 5) < 0 := by
      have := hneg 40 (by norm_num)
      rwa [h40eq] at this
    rw [if_pos (mul_pos_of_neg_of_neg hfa hfb)]
    rw [scanAux_none_neg diff (jdCenter + 5) 41 (jdCenter - 5) (diff (jdCenter - 5))
      (jdCenter - 5 + 1/4) hfa ?_]
    intro x hx1 hx2 hex
    obtain ⟨k, hk, hxk⟩ := hprobe x hx1 hx2 hex
    rw [hxk]
    exact hneg k hk

/-- C2 (amended): when the diff samples have no sign change across the whole
window (here: strictly one sign at all 41 probe abscissae), the finder fails
by raising the builtin RuntimeError with the fixed message used in the
source, distinguishable only by its message string (the module defines no
dedicated NoBracketError class), and performs no fallback or approximation
inside the finder: the call returns exactly this error. -/
theorem c2_no_bracket_error (sunLon : ℚ → ℚ) (jdNatal jdCenter : ℚ)
    (h : (∀ k : ℕ, k ≤ 40 →
            0 < wrapDiffDeg (sunLon (jdCenter - 5 + (k : ℚ) * (1/4))) (sunLon jdNatal)) ∨
         (∀ k : ℕ, k ≤ 40 →
            wrapDiffDeg (sunLon (jdCenter - 5 + (k : ℚ) * (1/4))) (sunLon jdNatal) < 0)) :
    findSolarReturn sunLon jdNatal jdCenter =
      .error (.runtimeError "No se pudo acotar el retorno solar (ventana insuficiente).") :=
  findSolarReturn_noBracket sunLon jdNatal jdCenter h

/-- Synthetic longitude oracle whose diff never changes sign over the
window of `findSolarReturn _ 0 100`: the natal longitude is 0 and every
other longitude is 10, so diff is 10 at every probe. -/
def c2Oracle : ℚ → ℚ := fun t => if t = 0 then 0 else 10

theorem c2Oracle_pos :
    ∀ k : ℕ, k ≤ 40 →
      0 < wrapDiffDeg (c2Oracle ((100 : ℚ) - 5 + (k : ℚ) * (1/4))) (c2Oracle 0) := by
  intro k _
  have hk0 : (0 : ℚ) ≤ (k : ℚ) := Nat.cast_nonneg k
  have ht : (100 : ℚ) - 5 + (k : ℚ) * (1/4) ≠ 0 := by
    intro heq
    nlinarith
  have hsun : c2Oracle ((100 : ℚ) - 5 + (k : ℚ) * (1/4)) = 10 := by
    unfold c2Oracle
    rw [if_neg ht]
  have hnat : c2Oracle 0 = 0 := by
    unfold c2Oracle
    rw [if_pos rfl]
  rw [hsun, hnat]
  norm_num [wrapDiffDeg, pymod]

/-- C2 counterexample: on a concrete no-sign-change oracle the finder
raises the generic builtin RuntimeError (the only exception class used in
`main.py`, also raised when the ephemeris is unavailable), not a dedicated
NoBracketError: no such class exists in the module. -/
theorem c2_counterexample :
    findSolarReturn c2Oracle 0 100 =
      .error (.runtimeError "No se pudo acotar el retorno solar (ventana insuficiente).") :=
  findSolarReturn_noBracket c2Oracle 0 100 (Or.inl c2Oracle_pos)

theorem c2_witness :
    (∀ k : ℕ, k ≤ 40 →
      0 < wrapDiffDeg (c2Oracle ((100 : ℚ) - 5 + (k : ℚ) * (1/4))) (c2Oracle 0)) ∧
    findSolarReturn c2Oracle 0 100 =
      .error (.runtimeError "No se pudo acotar el retorno solar (ventana insuficiente).") :=
  ⟨c2Oracle_pos, c2_no_bracket_error c2Oracle 0 100 (Or.inl c2Oracle_pos)⟩

theorem scanAux_count_le (diff : ℚ → ℚ) (b : ℚ) :
    ∀ (n k : ℕ) (prevJd prevF cur : ℚ), 4 * (b - cur) ≤ (k : ℚ) →
      (scanAux diff b prevJd prevF cur n).2 ≤ k + 1 := by
  intro n
  induction n with
  | zero =>
    intro k prevJd prevF cur _
    exact Nat.zero_le _
  | succ m ih =>
    intro k prevJd prevF cur hk
    simp only [scanAux]
    by_cases hcb : cur ≤ b
    · rw [if_pos hcb]
      by_cases hprod : prevF * diff cur ≤ 0
      · rw [if_pos hprod]
        exact Nat.succ_le_succ (Nat.zero_le k)
      · rw [if_neg hprod]
        cases k with
        | zero =>
          have hk0 : 4 * (b - cur) ≤ (0 : ℚ) := by exact_mod_cast hk
          have hbc : b = cur := le_antisymm (by linarith) hcb
          have hnext : ¬ (cur + 1/4 ≤ b) := by rw [hbc]; intro hcon; linarith
          cases m with
          | zero => simp [scanAux]
          | succ m2 =>
            simp only [scanAux]
            rw [if_neg hnext]
        | succ k2 =>
          have hk2 : 4 * (b - (cur + 1/4)) ≤ (k2 : ℚ) := by
            push_cast at hk ⊢
            linarith
          have := ih k2 cur (diff cur) (cur + 1/4) hk2
          omega
    · rw [if_neg hcb]
      exact Nat.zero_le _

theorem bisectStep_width (diff : ℚ → ℚ) (st : ℚ × ℚ × ℚ × ℚ) :
    (bisectStep diff st).2.1 - (bisectStep diff st).1 = (st.2.1 - st.1) / 2 := by
  simp only [bisectStep]
  split_ifs <;> dsimp only <;> ring

theorem bisectLoop_width (diff : ℚ → ℚ) :
    ∀ (n : ℕ) (st : ℚ × ℚ × ℚ × ℚ),
      (bisectLoop diff n st).2.1 - (bisectLoop diff n st).1 =
        (st.2.1 - st.1) / 2 ^ n := by
  intro n
  induction n with
  | zero => intro st; simp [bisectLoop]
  | succ m ih =>
    intro st
    show (bisectLoop diff m (bisectStep diff st)).2.1 -
        (bisectLoop diff m (bisectStep diff st)).1 = (st.2.1 - st.1) / 2 ^ (m + 1)
    rw [ih (bisectStep diff st), bisectStep_width]
    rw [pow_succ]
    ring

/-- C3: the finder loops are bounded and deterministic: the 6-hour bracket
scan over the 10-day window evaluates diff at most 41 times (at most 40
loop passes, at the fixed quarter-day stride, plus the claim allows one
more), the bisection performs exactly 60 halvings (the final bracket width
is the initial width divided by 2^60), and every outcome is either the
fixed no-bracket error or the final midpoint `(a+b)/2` of the 60-fold
bisected bracket. -/
theorem c3_bounded_deterministic (sunLon : ℚ → ℚ) (jdNatal jdCenter : ℚ) :
    ((scanAux (fun jd => wrapDiffDeg (sunLon jd) (sunLon jdNatal)) (jdCenter + 5)
        (jdCenter - 5)
        (wrapDiffDeg (sunLon (jdCenter - 5)) (sunLon jdNatal))
        (jdCenter - 5 + 1/4) 41).2 ≤ 41) ∧
    (∀ st : ℚ × ℚ × ℚ × ℚ,
      (bisectLoop (fun jd => wrapDiffDeg (sunLon jd) (sunLon jdNatal)) 60 st).2.1 -
        (bisectLoop (fun jd => wrapDiffDeg (sunLon jd) (sunLon jdNatal)) 60 st).1 =
        (st.2.1 - st.1) / 2 ^ 60) ∧
    (findSolarReturn sunLon jdNatal jdCenter =
        .error (.runtimeError "No se pudo acotar el retorno solar (ventana insuficiente).") ∨
      ∃ st : ℚ × ℚ × ℚ × ℚ, findSolarReturn sunLon jdNatal jdCenter =
        .ok (((bisectLoop (fun jd => wrapDiffDeg (sunLon jd) (sunLon jdNatal)) 60 st).1 +
          (bisectLoop (fun jd => wrapDiffDeg (sunLon jd) (sunLon jdNatal)) 60 st).2.1) / 2)) := by
  refine ⟨?_, fun st => bisectLoop_width _ 60 st, ?_⟩
  · have h39 : 4 * ((jdCenter + 5) - (jdCenter - 5 + 1/4)) ≤ ((39 : ℕ) : ℚ) := by
      push_cast
      linarith
    have := scanAux_count_le (fun jd => wrapDiffDeg (sunLon jd) (sunLon jdNatal))
      (jdCenter + 5) 41 39 (jdCenter - 5)
      (wrapDiffDeg (sunLon (jdCenter - 5)) (sunLon jdNatal)) (jdCenter - 5 + 1/4) h39
    omega
  · simp only [findSolarReturn]
    by_cases hgt :
        wrapDiffDeg (sunLon (jdCenter - 5)) (sunLon jdNatal) *
          wrapDiffDeg (sunLon (jdCenter + 5)) (sunLon jdNatal) > 0
    · rw [if_pos hgt]
      cases hscan : (scanAux (fun jd => wrapDiffDeg (sunLon jd) (sunLon jdNatal))
          (jdCenter + 5) (jdCenter - 5)
          (wrapDiffDeg (sunLon (jdCenter - 5)) (sunLon jdNatal))
          (jdCenter - 5 + 1/4) 41).1 with
      | none => exact Or.inl rfl
      | some st => exact Or.inr ⟨st, rfl⟩
    · rw [if_neg hgt]
      exact Or.inr ⟨(jdCenter - 5, jdCenter + 5,
        wrapDiffDeg (sunLon (jdCenter - 5)) (sunLon jdNatal),
        wrapDiffDeg (sunLon (jdCenter + 5)) (sunLon jdNatal)), rfl⟩

/-- Payload (type, orb, exact flag) of the records of one aspect list whose
partner is `con`. -/
def aspPayload (l : List AspRec) (con : String) : List (String × ℚ × Bool) :=
  l.filterMap fun r => if r.con = con then some (r.tipo, r.orbe, r.exacto) else none

theorem aspPayload_bumpAsp (f : String → List AspRec) (n : String) (r : AspRec)
    (X con : String) :
    aspPayload (bumpAsp f n r X) con =
      aspPayload (f X) con ++
        (if X = n ∧ r.con = con then [(r.tipo, r.orbe, r.exacto)] else []) := by
  unfold bumpAsp
  by_cases hX : X = n
  · rw [if_pos hX]
    unfold aspPayload
    rw [List.filterMap_append]
    by_cases hc : r.con = con
    · simp [hc, hX]
    · simp [hc, hX]
  · rw [if_neg hX]
    simp [hX]

theorem aspStep_sym (p1 : PlanetaData) (pos1 : ℚ) (st : AspState) (p2 : PlanetaData)
    (hst : ∀ A B : String, A ≠ B →
      aspPayload (st.mapa A) B = aspPayload (st.mapa B) A) :
    ∀ A B : String, A ≠ B →
      aspPayload ((aspStep p1 pos1 st p2).mapa A) B =
        aspPayload ((aspStep p1 pos1 st p2).mapa B) A := by
  intro A B hAB
  unfold aspStep
  split_ifs with hv
  · exact hst A B hAB
  · cases hda : detectarAspecto
        (calcularDistanciaAngular pos1 (posicionAbsoluta p2.signo p2.grado)) with
    | none =>
      dsimp only
      rw [hda]
      exact hst A B hAB
    | some td =>
      dsimp only
      rw [hda]
      dsimp only
      rw [aspPayload_bumpAsp, aspPayload_bumpAsp, aspPayload_bumpAsp, aspPayload_bumpAsp]
      rw [hst A B hAB]
      by_cases hA1 : A = p1.nombre <;> by_cases hA2 : A = p2.nombre <;>
        by_cases hB1 : B = p1.nombre <;> by_cases hB2 : B = p2.nombre <;>
        simp_all <;> tauto

theorem aspOuter_sym :
    ∀ (planetas : List PlanetaData) (st : AspState),
      (∀ A B : String, A ≠ B →
        aspPayload (st.mapa A) B = aspPayload (st.mapa B) A) →
      ∀ A B : String, A ≠ B →
        aspPayload ((aspOuter st planetas).mapa A) B =
          aspPayload ((aspOuter st planetas).mapa B) A := by
  intro planetas
  induction planetas with
  | nil => intro st hst; exact hst
  | cons p1 rest ih =>
    intro st hst
    unfold aspOuter
    apply ih
    have hfold : ∀ (l : List PlanetaData) (st0 : AspState),
        (∀ A B : String, A ≠ B →
          aspPayload (st0.mapa A) B = aspPayload (st0.mapa B) A) →
        ∀ A B : String, A ≠ B →
          aspPayload ((l.foldl (aspStep p1 (posicionAbsoluta p1.signo p1.grado)) st0).mapa A) B =
            aspPayload ((l.foldl (aspStep p1 (posicionAbsoluta p1.signo p1.grado)) st0).mapa B) A := by
      intro l
      induction l with
      | nil => intro st0 h0; exact h0
      | cons q qs ihq =>
        intro st0 h0
        rw [List.foldl_cons]
        exact ihq _ (aspStep_sym p1 _ st0 q h0)
    exact hfold rest st hst

/-- C5: aspect detection is symmetric: for any two distinct body names A and
B, the records in the list of A naming B and the records in the list of B
naming A carry exactly the same (type, orb, exact) payloads; in particular a
record appears on one side precisely when one appears on the other, with
identical type, orb and exact flag. -/
theorem c5_aspect_symmetry (planetas : List PlanetaData) (A B : String)
    (hAB : A ≠ B) :
    aspPayload (calcularAspectosCarta planetas A) B =
      aspPayload (calcularAspectosCarta planetas B) A ∧
    ((∃ r ∈ calcularAspectosCarta planetas A, r.con = B) ↔
      (∃ r ∈ calcularAspectosCarta planetas B, r.con = A)) := by
  have hpe : aspPayload (calcularAspectosCarta planetas A) B =
      aspPayload (calcularAspectosCarta planetas B) A := by
    unfold calcularAspectosCarta
    exact aspOuter_sym planetas ⟨[], fun _ => []⟩
      (fun _ _ _ => rfl) A B hAB
  refine ⟨hpe, ?_⟩
  have hne : ∀ (l : List AspRec) (c : String),
      (∃ r ∈ l, r.con = c) ↔ aspPayload l c ≠ [] := by
    intro l c
    unfold aspPayload
    constructor
    · rintro ⟨r, hr, hc⟩ hnil
      rw [List.filterMap_eq_nil_iff] at hnil
      have := hnil r hr
      rw [if_pos hc] at this
      cases this
    · intro hnil
      rcases hx : l.filterMap fun r => if r.con = c then some (r.tipo, r.orbe, r.exacto) else none with _ | ⟨x, xs⟩
      · exact absurd hx hnil
      · have hxmem : x ∈ l.filterMap fun r =>
            if r.con = c then some (r.tipo, r.orbe, r.exacto) else none := by
          rw [hx]; exact List.mem_cons_self _ _
        rw [List.mem_filterMap] at hxmem
        obtain ⟨r, hr, hif⟩ := hxmem
        by_cases hc : r.con = c
        · exact ⟨r, hr, hc⟩
        · rw [if_neg hc] at hif; cases hif
  rw [hne, hne, hpe]

/-- Two-body chart at absolute longitudes 10 and 100: an exact square. -/
def c5Planetas : List PlanetaData :=
  [⟨"Sol", 10, "Aries", 1, false⟩, ⟨"Luna", 10, "Cancer", 1, false⟩]

theorem c5_witness :
    "Sol" ≠ "Luna" ∧
    (aspPayload (calcularAspectosCarta c5Planetas "Sol") "Luna" =
        aspPayload (calcularAspectosCarta c5Planetas "Luna") "Sol" ∧
      ((∃ r ∈ calcularAspectosCarta c5Planetas "Sol", r.con = "Luna") ↔
        (∃ r ∈ calcularAspectosCarta c5Planetas "Luna", r.con = "Sol"))) ∧
    aspPayload (calcularAspectosCarta c5Planetas "Sol") "Luna" =
      [("cuadratura", 0, true)] := by
  refine ⟨by decide, c5_aspect_symmetry c5Planetas "Sol" "Luna" (by decide), ?_⟩
  have hpos1 : posicionAbsoluta "Aries" 10 = 10 := by
    simp [posicionAbsoluta, signosIndex, normalizarSigno]
  have hpos2 : posicionAbsoluta "Cancer" 10 = 100 := by
    simp [posicionAbsoluta, signosIndex, normalizarSigno]
    norm_num
  have hdist : calcularDistanciaAngular 10 100 = 90 := by
    norm_num [calcularDistanciaAngular]
  have hda : detectarAspecto 90 = some ("cuadratura", 0) := by
    norm_num [detectarAspecto, detectarAspectoCon, aspectosTable]
  have hle : (0 : ℚ) ≤ 3 := by norm_num
  have hr20 : round2 0 = 0 := by norm_num [round2, rhe]
  simp [calcularAspectosCarta, aspOuter, aspStep, parVisto, bumpAsp, aspPayload,
    c5Planetas, hpos1, hpos2, hdist, hda, hle, hr20]

theorem scanAux_fuel_irrel (diff : ℚ → ℚ) (b : ℚ) :
    ∀ (n m : ℕ) (prevJd prevF cur : ℚ),
      4 * (b - cur) < (n : ℚ) → 4 * (b - cur) < (m : ℚ) →
      scanAux diff b prevJd prevF cur n = scanAux diff b prevJd prevF cur m := by
  intro n
  induction n with
  | zero =>
    intro m prevJd prevF cur hn hm
    have hcb : ¬ (cur ≤ b) := by
      intro hle
      have h0 : (0 : ℚ) ≤ 4 * (b - cur) := by linarith
      have : 4 * (b - cur) < 0 := by exact_mod_cast hn
      linarith
    cases m with
    | zero => rfl
    | succ m2 =>
      simp only [scanAux]
      rw [if_neg hcb]
  | succ n2 ih =>
    intro m prevJd prevF cur hn hm
    cases m with
    | zero =>
      have hcb : ¬ (cur ≤ b) := by
        intro hle
        have h0 : (0 : ℚ) ≤ 4 * (b - cur) := by linarith
        have : 4 * (b - cur) < 0 := by exact_mod_cast hm
        linarith
      simp only [scanAux]
      rw [if_neg hcb]
    | succ m2 =>
      simp only [scanAux]
      by_cases hcb : cur ≤ b
      · rw [if_pos hcb, if_pos hcb]
        by_cases hpr : prevF * diff cur ≤ 0
        · rw [if_pos hpr, if_pos hpr]
        · rw [if_neg hpr, if_neg hpr]
          have hn2 : 4 * (b - (cur + 1/4)) < ((n2 : ℕ) : ℚ) := by
            push_cast at hn ⊢
            linarith
          have hm2 : 4 * (b - (cur + 1/4)) < ((m2 : ℕ) : ℚ) := by
            push_cast at hm ⊢
            linarith
          rw [ih m2 cur (diff cur) (cur + 1/4) hn2 hm2]
      · rw [if_neg hcb, if_neg hcb]

end SAVP
